import Mathlib

/-!
# Shallow embedding of the `golang-gateway-api` request pipeline

The whole program is `src/main.go`: a Fiber v2 application that installs, in
registration order,

1. `helmet.New()` — only adds hardening response headers, never rejects;
2. `cors.New()` — only adds CORS headers on ordinary requests (it alters
   control flow only for cross-origin `OPTIONS` preflight requests, which are
   outside the scope of this embedding);
3. `logger.New()` — only logs;
4. `limiter.New` with `Max: 50`, `Expiration: 1 * time.Minute`, keyed by
   client IP (Fiber's default fixed-window strategy);
5. `filesystem.New` on `"/"` over the embedded `public` tree with
   `Index: "index.html"`, `Browse: false` and no `NotFoundFile`;
6. the group `/v1` with `authMiddleware` (header `X-RIZ-KEY` versus env
   `RIZ_SECRET_KEY`), containing `All "/wa/*"` and `All "/mail/*"` proxy
   routes whose target is `os.Getenv(<base>) + "/" + c.Params("*")`;
7. `Get "/status"` answering `c.JSON(fiber.Map{"status": "Guarding",
   "uptime": "Active"})`.

The server is created with `BodyLimit: 2 * 1024 * 1024`; fasthttp rejects any
request whose body exceeds that limit with a 413 before any middleware runs.

The behavior of the Fiber middlewares named above (fixed-window limiter,
filesystem serving over `http.FS`, the `Cannot <METHOD> <path>` 404 fallback,
`proxy.Do` sending the original request with its URI replaced by the
computed target) is part of the program and is embedded here from the
middleware semantics of Fiber v2, as documented on each definition.
-/

namespace Gateway

/-- Limiter window in seconds (`Expiration: 1 * time.Minute`; Fiber's limiter
measures timestamps in whole seconds). -/
def windowSeconds : Nat := 60

/-- Maximum admitted hits per window (`Max: 50`). -/
def maxHits : Nat := 50

/-- `BodyLimit: 2 * 1024 * 1024` bytes. -/
def bodyLimit : Nat := 2 * 1024 * 1024

/-- Process configuration, read with `os.Getenv`: an unset variable is the
empty string, exactly as `os.Getenv` returns it. -/
structure Env where
  rizSecretKey : String
  waServiceURL : String
  mailServiceURL : String
deriving Repr, DecidableEq

/-- An inbound HTTP request as the handlers observe it: method, URL path,
raw query string, header list, body and the client address used as the
rate-limiting key (`c.IP()`). -/
structure Request where
  method : String
  path : String
  query : String
  headers : List (String × String)
  body : String
  clientIP : String
deriving Repr, DecidableEq

/-- `strings.HasPrefix a b` in the model: computed on the character-list
view of `String`, so that the kernel can evaluate it on concrete inputs. -/
def strStartsWith (a b : String) : Bool :=
  a.data.isPrefixOf b.data

/-- Drop the first `n` characters, on the character-list view of `String`. -/
def strDrop (s : String) (n : Nat) : String :=
  ⟨s.data.drop n⟩

/-- `c.Get(name)`: the value of the header, or `""` when absent. -/
def getHeader (r : Request) (name : String) : String :=
  match r.headers.find? (fun p => p.1 == name) with
  | some p => p.2
  | none => ""

/-- One entry of the limiter's storage: current hit count and expiry
timestamp of the window. A key that was never seen reads as `⟨0, 0⟩`,
matching the zero-valued entry `manager.get` returns for a fresh key. -/
structure LimiterEntry where
  currHits : Nat
  exp : Nat
deriving Repr, DecidableEq

/-- The limiter's per-key storage, as an association list. -/
abbrev LimiterState := List (String × LimiterEntry)

/-- Read a key's entry; fresh keys read as the zero entry. -/
def lookupEntry (st : LimiterState) (key : String) : LimiterEntry :=
  match st.find? (fun p => p.1 == key) with
  | some p => p.2
  | none => ⟨0, 0⟩

/-- Store a key's entry (`manager.set`). -/
def setEntry (st : LimiterState) (key : String) (e : LimiterEntry) : LimiterState :=
  (key, e) :: st.filter (fun p => !(p.1 == key))

/-- One call of Fiber v2's fixed-window limiter for `key` at timestamp `ts`
(seconds): initialize the expiry on a fresh entry, reset an elapsed window,
increment the hit count, store the entry, and admit the request iff
`remaining = Max - currHits` is not negative, i.e. iff `currHits ≤ Max`. -/
def limiterStep (st : LimiterState) (key : String) (ts : Nat) : Bool × LimiterState :=
  let e0 := lookupEntry st key
  let e1 :=
    if e0.exp = 0 then { e0 with exp := ts + windowSeconds }
    else if e0.exp ≤ ts then
      let elapsed := ts - e0.exp
      if windowSeconds ≤ elapsed then
        { currHits := 0, exp := ts + windowSeconds }
      else
        { currHits := 0, exp := ts + (windowSeconds - elapsed) }
    else e0
  let e2 : LimiterEntry := { currHits := e1.currHits + 1, exp := e1.exp }
  (decide (e2.currHits ≤ maxHits), setEntry st key e2)

/-- The embedded `public` asset tree: file names relative to `public/`
(no leading slash, e.g. `"index.html"`, `"assets/app.js"`) with contents.
The tree is not under `src/`, so it stays a parameter of the model. -/
abbrev AssetTree := List (String × String)

/-- Look up a file by name in the asset tree. -/
def assetFile (tree : AssetTree) (name : String) : Option String :=
  match tree.find? (fun p => p.1 == name) with
  | some p => some p.2
  | none => none

/-- `name` denotes a (non-empty) directory of the tree: some file lives
strictly below it. -/
def assetDirNonempty (tree : AssetTree) (name : String) : Bool :=
  tree.any (fun p => strStartsWith (name ++ "/") p.1)

/-- What the `filesystem` middleware does with a request it looks at. -/
inductive FsOut
  | serve (content : String)
  | forbidden
  | next (preStatus : Nat)
deriving Repr, DecidableEq

/-- `utils.TrimRight(s, '/')`: remove every trailing `'/'`, on the
character-list view of `String`. -/
def trimTrailingSlashes (s : String) : String :=
  ⟨(s.data.reverse.dropWhile (fun c => c = '/')).reverse⟩

/-- File resolution of `filesystem.New` over `http.FS(dist)` for URL path
`p`: trim trailing slashes (when `len(path) > 1`), open the file named by the
path without its leading slash; on a hit serve it; on a directory try the
index at `TrimRight(path, '/') + "/index.html"` (the middleware's
`configDefault` prepends a `/` to the configured `Index: "index.html"`) and
otherwise answer 403 since `Browse` is false; on a miss set the response
status to 404 and fall through to the next handler
(`return c.Status(fiber.StatusNotFound).Next()`). -/
def fsResolve (tree : AssetTree) (p : String) : FsOut :=
  let q := if 1 < p.length then trimTrailingSlashes p else p
  if q = "/" then
    match assetFile tree "index.html" with
    | some c => .serve c
    | none => .forbidden
  else
    let name := strDrop q 1
    match assetFile tree name with
    | some c => .serve c
    | none =>
      if assetDirNonempty tree name then
        match assetFile tree (name ++ "/index.html") with
        | some c => .serve c
        | none => .forbidden
      else .next 404

/-- The `filesystem` middleware serves only `GET` and `HEAD`; every other
method is passed on untouched (response status still at its default 200). -/
def fsMiddleware (tree : AssetTree) (r : Request) : FsOut :=
  if r.method = "GET" ∨ r.method = "HEAD" then fsResolve tree r.path
  else .next 200

/-- Wildcard remainder of the route `/v1/wa/*` (`c.Params("*")`): Fiber's
wildcard also matches the bare and slash-terminated prefix with an empty
parameter. -/
def waRemainder (p : String) : Option String :=
  if p = "/v1/wa" then some ""
  else if strStartsWith "/v1/wa/" p then some (strDrop p 7)
  else none

/-- Wildcard remainder of the route `/v1/mail/*`. -/
def mailRemainder (p : String) : Option String :=
  if p = "/v1/mail" then some ""
  else if strStartsWith "/v1/mail/" p then some (strDrop p 9)
  else none

/-- Pipeline stages whose execution the model records. -/
inductive Stage
  | rateCheck
  | staticLookup
  | authCheck
  | waRoute
  | mailRoute
  | statusRoute
  | fallback
deriving Repr, DecidableEq

/-- The forwarded request `proxy.Do` sends upstream: `doAction` takes the
original fasthttp request — method, headers (minus `Connection`) and body
unchanged — and replaces its request URI with the computed target
(`req.SetRequestURI(addr)`), restoring the original URL only after the
upstream call. The target is built from the path wildcard alone, so the
original query string is not part of the forwarded URI. -/
structure ProxyCall where
  target : String
  method : String
  body : String
deriving Repr, DecidableEq

/-- Query part of a request URI, as fasthttp parses the URI handed to
`SetRequestURI`: everything after the first `?`, empty when there is none. -/
def uriQuery (uri : String) : String :=
  ⟨(uri.data.dropWhile (fun c => c ≠ '?')).drop 1⟩

/-- JSON body of the `/status` handler: `encoding/json` marshals the Go map
with its keys in sorted order. -/
def statusBody : String :=
  "\x7b\"status\":\"Guarding\",\"uptime\":\"Active\"\x7d"

/-- JSON body of the 401 response of `authMiddleware`. -/
def unauthorizedBody : String :=
  "\x7b\"error\":\"Akses Ditolak. API Key tidak valid.\"\x7d"

/-- How a request leaves the pipeline. `statusJSON` carries the response
status actually in effect when the `/status` handler runs, because `c.JSON`
sets only the body and content type, never the status code. -/
inductive Outcome
  | tooLarge
  | rateLimited
  | staticServed (content : String)
  | staticForbidden
  | unauthorized
  | proxied (call : ProxyCall)
  | statusJSON (status : Nat) (body : String)
  | notFound (body : String)
deriving Repr, DecidableEq

/-- HTTP status of each outcome; `none` for a proxied request, whose status
comes from the upstream response. -/
def Outcome.statusCode : Outcome → Option Nat
  | .tooLarge => some 413
  | .rateLimited => some 429
  | .staticServed _ => some 200
  | .staticForbidden => some 403
  | .unauthorized => some 401
  | .proxied _ => none
  | .statusJSON s _ => some s
  | .notFound _ => some 404

/-- Response body of each outcome; `none` where it comes from outside the
model (the 413 is written by fasthttp, a proxied body by the upstream). -/
def Outcome.bodyText : Outcome → Option String
  | .tooLarge => none
  | .rateLimited => some "Too Many Requests"
  | .staticServed c => some c
  | .staticForbidden => some "Forbidden"
  | .unauthorized => some unauthorizedBody
  | .proxied _ => none
  | .statusJSON _ b => some b
  | .notFound b => some b

/-- Routing below the limiter and filesystem middleware, in registration
order: the `/v1` group's `authMiddleware` (a `Use`, so it guards every path
with string prefix `/v1`), the `/wa/*` and `/mail/*` routes, the `GET
/status` route (Fiber's `Get` also answers `HEAD`), and Fiber's final
`Cannot <METHOD> <path>` 404. `preStatus` is the response status already in
effect (404 after a filesystem miss, 200 otherwise); only the `/status`
handler leaves it unchanged, every other responder sets its own status. -/
def routeDispatch (env : Env) (r : Request) (preStatus : Nat) : Outcome × List Stage :=
  if strStartsWith "/v1" r.path then
    if getHeader r "X-RIZ-KEY" = "" ∨ getHeader r "X-RIZ-KEY" ≠ env.rizSecretKey then
      (.unauthorized, [.authCheck])
    else
      match waRemainder r.path with
      | some rest =>
        (.proxied ⟨env.waServiceURL ++ "/" ++ rest, r.method, r.body⟩,
         [.authCheck, .waRoute])
      | none =>
        match mailRemainder r.path with
        | some rest =>
          (.proxied ⟨env.mailServiceURL ++ "/" ++ rest, r.method, r.body⟩,
           [.authCheck, .mailRoute])
        | none =>
          (.notFound ("Cannot " ++ r.method ++ " " ++ r.path), [.authCheck, .fallback])
  else if (r.method = "GET" ∨ r.method = "HEAD") ∧ r.path = "/status" then
    (.statusJSON preStatus statusBody, [.statusRoute])
  else
    (.notFound ("Cannot " ++ r.method ++ " " ++ r.path), [.fallback])

/-- Stage marker for the filesystem middleware: it inspects only `GET` and
`HEAD` requests. -/
def fsStages (r : Request) : List Stage :=
  if r.method = "GET" ∨ r.method = "HEAD" then [Stage.staticLookup] else []

/-- Result of one request through the gateway: the outcome, the stages that
ran in order, and the limiter storage afterwards. -/
structure GatewayResult where
  outcome : Outcome
  stages : List Stage
  limiter : LimiterState
deriving Repr, DecidableEq

/-- The proxy forwarder ran (one of the two proxy routes executed). -/
def GatewayResult.proxyInvoked (g : GatewayResult) : Bool :=
  g.stages.contains Stage.waRoute || g.stages.contains Stage.mailRoute

/-- `authMiddleware` ran. -/
def GatewayResult.authInvoked (g : GatewayResult) : Bool :=
  g.stages.contains Stage.authCheck

/-- One request through the whole program: fasthttp's `BodyLimit` check,
then the limiter, then the filesystem middleware, then route dispatch, in
the registration order of `main`. -/
def handle (env : Env) (tree : AssetTree) (st : LimiterState) (now : Nat)
    (r : Request) : GatewayResult :=
  if bodyLimit < r.body.length then
    ⟨.tooLarge, [], st⟩
  else if (limiterStep st r.clientIP now).1 then
    match fsMiddleware tree r with
    | .serve c =>
      ⟨.staticServed c, [.rateCheck, .staticLookup], (limiterStep st r.clientIP now).2⟩
    | .forbidden =>
      ⟨.staticForbidden, [.rateCheck, .staticLookup], (limiterStep st r.clientIP now).2⟩
    | .next pre =>
      ⟨(routeDispatch env r pre).1,
       Stage.rateCheck :: fsStages r ++ (routeDispatch env r pre).2,
       (limiterStep st r.clientIP now).2⟩
  else
    ⟨.rateLimited, [.rateCheck], (limiterStep st r.clientIP now).2⟩

/-- A sequence of timestamped requests through the gateway, threading the
limiter storage. -/
def handleSeq (env : Env) (tree : AssetTree) :
    LimiterState → List (Nat × Request) → List GatewayResult
  | _, [] => []
  | st, (t, r) :: rest =>
    let g := handle env tree st t r
    g :: handleSeq env tree g.limiter rest

end Gateway

namespace Gateway

/-! ## Helper lemmas about the embedding -/

theorem lookupEntry_setEntry_self (st : LimiterState) (k : String) (e : LimiterEntry) :
    lookupEntry (setEntry st k e) k = e := by
  simp [lookupEntry, setEntry, List.find?]

theorem lookupEntry_setEntry_ne (st : LimiterState) (k k' : String) (e : LimiterEntry)
    (h : k' ≠ k) : lookupEntry (setEntry st k e) k' = lookupEntry st k' := by
  have hbk : (k == k') = false := by
    exact beq_false_of_ne (fun hk => h hk.symm)
  unfold lookupEntry setEntry
  simp only [List.find?, hbk]
  induction st with
  | nil => rfl
  | cons p rest ih =>
    by_cases hp : p.1 = k
    · have h1 : (p.1 == k) = true := beq_iff_eq.mpr hp
      have h2 : (p.1 == k') = false := beq_false_of_ne (fun hk => h (by rw [← hk, hp]))
      simp only [List.filter, h1, Bool.not_true, List.find?, h2] at *
      exact ih
    · have h1 : (p.1 == k) = false := beq_false_of_ne hp
      simp only [List.filter, h1, Bool.not_false, List.find?]
      cases hpk : (p.1 == k') with
      | true => rfl
      | false => exact ih

theorem fsStages_contains (r : Request) (s : Stage) (h : s ≠ Stage.staticLookup) :
    (fsStages r).contains s = false := by
  unfold fsStages
  split
  · simp [List.contains, h]
  · rfl

/-- Pipeline decomposition: a request within the body limit, admitted by the
limiter, that the filesystem middleware passes on, is answered by route
dispatch. -/
theorem handle_route (env : Env) (tree : AssetTree) (st : LimiterState) (now : Nat)
    (r : Request) (pre : Nat)
    (hbody : r.body.length ≤ bodyLimit)
    (hok : (limiterStep st r.clientIP now).1 = true)
    (hfs : fsMiddleware tree r = FsOut.next pre) :
    handle env tree st now r =
      ⟨(routeDispatch env r pre).1,
       Stage.rateCheck :: fsStages r ++ (routeDispatch env r pre).2,
       (limiterStep st r.clientIP now).2⟩ := by
  have hb : ¬ (bodyLimit < r.body.length) := not_lt.mpr hbody
  unfold handle
  rw [if_neg hb, hok, if_pos rfl, hfs]

/-- Pipeline decomposition: an admitted `GET`/`HEAD` request whose path the
filesystem middleware resolves to a file is answered with that file. -/
theorem handle_static (env : Env) (tree : AssetTree) (st : LimiterState) (now : Nat)
    (r : Request) (c : String)
    (hbody : r.body.length ≤ bodyLimit)
    (hok : (limiterStep st r.clientIP now).1 = true)
    (hfs : fsMiddleware tree r = FsOut.serve c) :
    handle env tree st now r =
      ⟨.staticServed c, [.rateCheck, .staticLookup], (limiterStep st r.clientIP now).2⟩ := by
  have hb : ¬ (bodyLimit < r.body.length) := not_lt.mpr hbody
  unfold handle
  rw [if_neg hb, hok, if_pos rfl, hfs]

/-- Pipeline decomposition: a request the limiter rejects is answered 429
directly. -/
theorem handle_rateLimited (env : Env) (tree : AssetTree) (st : LimiterState) (now : Nat)
    (r : Request)
    (hbody : r.body.length ≤ bodyLimit)
    (hrej : (limiterStep st r.clientIP now).1 = false) :
    handle env tree st now r =
      ⟨.rateLimited, [.rateCheck], (limiterStep st r.clientIP now).2⟩ := by
  have hb : ¬ (bodyLimit < r.body.length) := not_lt.mpr hbody
  unfold handle
  rw [if_neg hb, hrej]
  simp

theorem routeDispatch_unauthorized (env : Env) (r : Request) (pre : Nat)
    (hv1 : strStartsWith "/v1" r.path = true)
    (hkey : getHeader r "X-RIZ-KEY" = "" ∨ getHeader r "X-RIZ-KEY" ≠ env.rizSecretKey) :
    routeDispatch env r pre = (.unauthorized, [.authCheck]) := by
  unfold routeDispatch
  rw [if_pos hv1, if_pos hkey]

theorem routeDispatch_wa (env : Env) (r : Request) (pre : Nat) (rest : String)
    (hv1 : strStartsWith "/v1" r.path = true)
    (hkey : getHeader r "X-RIZ-KEY" = env.rizSecretKey)
    (hne : env.rizSecretKey ≠ "")
    (hrem : waRemainder r.path = some rest) :
    routeDispatch env r pre =
      (.proxied ⟨env.waServiceURL ++ "/" ++ rest, r.method, r.body⟩,
       [.authCheck, .waRoute]) := by
  have hauth : ¬ (getHeader r "X-RIZ-KEY" = "" ∨ getHeader r "X-RIZ-KEY" ≠ env.rizSecretKey) := by
    push_neg
    exact ⟨by rw [hkey]; exact hne, hkey⟩
  unfold routeDispatch
  rw [if_pos hv1, if_neg hauth, hrem]

theorem routeDispatch_mail (env : Env) (r : Request) (pre : Nat) (rest : String)
    (hv1 : strStartsWith "/v1" r.path = true)
    (hkey : getHeader r "X-RIZ-KEY" = env.rizSecretKey)
    (hne : env.rizSecretKey ≠ "")
    (hwa : waRemainder r.path = none)
    (hrem : mailRemainder r.path = some rest) :
    routeDispatch env r pre =
      (.proxied ⟨env.mailServiceURL ++ "/" ++ rest, r.method, r.body⟩,
       [.authCheck, .mailRoute]) := by
  have hauth : ¬ (getHeader r "X-RIZ-KEY" = "" ∨ getHeader r "X-RIZ-KEY" ≠ env.rizSecretKey) := by
    push_neg
    exact ⟨by rw [hkey]; exact hne, hkey⟩
  unfold routeDispatch
  rw [if_pos hv1, if_neg hauth, hwa, hrem]

theorem str_append_assoc (a b c : String) : a ++ b ++ c = a ++ (b ++ c) := by
  apply String.ext
  simp only [String.data_append, List.append_assoc]

end Gateway

namespace Gateway

/-! ## Concrete fixtures for witnesses -/

/-- A sample configuration with a non-empty secret and both upstreams set. -/
def envSample : Env := ⟨"sekret", "http://wa:3000", "http://mail:3100"⟩

/-- A sample UI bundle: the index document and one nested asset. -/
def treeSample : AssetTree :=
  [("index.html", "<html>app</html>"), ("assets/app.js", "js")]

/-- A request to `/v1/wa/x` with no `X-RIZ-KEY` header. -/
def reqC1 : Request := ⟨"GET", "/v1/wa/x", "", [], "", "9.9.9.9"⟩

/-! ## Claim theorems -/

/-- C1: every request to a path under `/v1/*` whose `X-RIZ-KEY` header is
missing, empty, or different from the configured secret (in particular
whenever the configured secret is empty) is answered 401 with the JSON error
body, and the proxy forwarder never runs for it. -/
theorem c1_invalid_key_unauthorized (env : Env) (tree : AssetTree) (st : LimiterState)
    (now : Nat) (r : Request) (pre : Nat)
    (hbody : r.body.length ≤ bodyLimit)
    (hok : (limiterStep st r.clientIP now).1 = true)
    (hfs : fsMiddleware tree r = FsOut.next pre)
    (hv1 : strStartsWith "/v1" r.path = true)
    (hkey : getHeader r "X-RIZ-KEY" = "" ∨ getHeader r "X-RIZ-KEY" ≠ env.rizSecretKey) :
    (handle env tree st now r).outcome = Outcome.unauthorized ∧
    (handle env tree st now r).outcome.statusCode = some 401 ∧
    (handle env tree st now r).outcome.bodyText = some unauthorizedBody ∧
    (handle env tree st now r).proxyInvoked = false := by
  have h := handle_route env tree st now r pre hbody hok hfs
  rw [routeDispatch_unauthorized env r pre hv1 hkey] at h
  rw [h]
  refine ⟨rfl, rfl, rfl, ?_⟩
  unfold GatewayResult.proxyInvoked fsStages
  split
  · rfl
  · rfl

/-- Witness for C1: a `GET /v1/wa/x` with no credential header against the
sample bundle and a fresh limiter is answered 401 and never proxied. -/
theorem c1_invalid_key_unauthorized_witness :
    (limiterStep [] reqC1.clientIP 0).1 = true ∧
    fsMiddleware treeSample reqC1 = FsOut.next 404 ∧
    strStartsWith "/v1" reqC1.path = true ∧
    getHeader reqC1 "X-RIZ-KEY" = "" ∧
    ((handle envSample treeSample [] 0 reqC1).outcome = Outcome.unauthorized ∧
     (handle envSample treeSample [] 0 reqC1).outcome.statusCode = some 401 ∧
     (handle envSample treeSample [] 0 reqC1).outcome.bodyText = some unauthorizedBody ∧
     (handle envSample treeSample [] 0 reqC1).proxyInvoked = false) :=
  ⟨by decide, by decide, by decide, by decide,
   c1_invalid_key_unauthorized envSample treeSample [] 0 reqC1 404
     (by decide) (by decide) (by decide) (by decide) (Or.inl (by decide))⟩

/-- C7: a request the rate limiter rejects is answered 429 directly: the
only stage that ran is the rate check, so route dispatch, authentication,
proxying and static serving are all skipped. -/
theorem c7_rate_reject_short_circuit (env : Env) (tree : AssetTree) (st : LimiterState)
    (now : Nat) (r : Request)
    (hbody : r.body.length ≤ bodyLimit)
    (hrej : (limiterStep st r.clientIP now).1 = false) :
    (handle env tree st now r).outcome = Outcome.rateLimited ∧
    (handle env tree st now r).outcome.statusCode = some 429 ∧
    (handle env tree st now r).stages = [Stage.rateCheck] := by
  rw [handle_rateLimited env tree st now r hbody hrej]
  exact ⟨rfl, rfl, rfl⟩

/-- A limiter storage in which `9.9.9.9` has exhausted its 50 hits in a
window that is still open at time 0. -/
def stFullWindow : LimiterState := [("9.9.9.9", ⟨50, 60⟩)]

/-- Witness for C7: the 51st request of a window is answered 429 with only
the rate check executed. -/
theorem c7_rate_reject_short_circuit_witness :
    reqC1.body.length ≤ bodyLimit ∧
    (limiterStep stFullWindow reqC1.clientIP 0).1 = false ∧
    ((handle envSample treeSample stFullWindow 0 reqC1).outcome = Outcome.rateLimited ∧
     (handle envSample treeSample stFullWindow 0 reqC1).outcome.statusCode = some 429 ∧
     (handle envSample treeSample stFullWindow 0 reqC1).stages = [Stage.rateCheck]) :=
  ⟨by decide, by decide,
   c7_rate_reject_short_circuit envSample treeSample stFullWindow 0 reqC1
     (by decide) (by decide)⟩

/-- C8: a request whose body exceeds the 2 MiB `BodyLimit` is rejected by
the server before any pipeline stage runs: no stage executes and the limiter
storage is untouched. -/
theorem c8_oversized_body_rejected_first (env : Env) (tree : AssetTree) (st : LimiterState)
    (now : Nat) (r : Request)
    (h : bodyLimit < r.body.length) :
    handle env tree st now r = ⟨Outcome.tooLarge, [], st⟩ ∧
    Outcome.statusCode Outcome.tooLarge = some 413 := by
  refine ⟨?_, rfl⟩
  unfold handle
  rw [if_pos h]

/-- A request whose body is one byte over the 2 MiB limit. -/
def reqC8 : Request :=
  ⟨"POST", "/v1/wa/x", "", [], ⟨List.replicate (bodyLimit + 1) 'a'⟩, "9.9.9.9"⟩

/-- Witness for C8: a body of 2 MiB + 1 is rejected with nothing executed. -/
theorem c8_oversized_body_rejected_first_witness :
    bodyLimit < reqC8.body.length ∧
    (handle envSample treeSample [] 0 reqC8 = ⟨Outcome.tooLarge, [], []⟩ ∧
     Outcome.statusCode Outcome.tooLarge = some 413) := by
  have h : bodyLimit < reqC8.body.length := by
    show bodyLimit < (String.mk (List.replicate (bodyLimit + 1) 'a')).length
    rw [String.length_mk, List.length_replicate]
    omega
  exact ⟨h, c8_oversized_body_rejected_first envSample treeSample [] 0 reqC8 h⟩

end Gateway

namespace Gateway

/-- The full result of an admitted, authenticated `/v1/wa/foo/bar` forward:
the proxied call carries the computed target and the request's method and
body. -/
theorem wa_forward_result (env : Env) (tree : AssetTree) (st : LimiterState)
    (now : Nat) (r : Request) (pre : Nat)
    (hbody : r.body.length ≤ bodyLimit)
    (hok : (limiterStep st r.clientIP now).1 = true)
    (hfs : fsMiddleware tree r = FsOut.next pre)
    (hpath : r.path = "/v1/wa/foo/bar")
    (hkey : getHeader r "X-RIZ-KEY" = env.rizSecretKey)
    (hne : env.rizSecretKey ≠ "") :
    handle env tree st now r =
      ⟨Outcome.proxied ⟨env.waServiceURL ++ "/foo/bar", r.method, r.body⟩,
       Stage.rateCheck :: fsStages r ++ [Stage.authCheck, Stage.waRoute],
       (limiterStep st r.clientIP now).2⟩ := by
  have hv1 : strStartsWith "/v1" r.path = true := by rw [hpath]; decide
  have hrem : waRemainder r.path = some "foo/bar" := by rw [hpath]; decide
  have hlit : ("/" : String) ++ "foo/bar" = "/foo/bar" := by decide
  have htar : env.waServiceURL ++ "/" ++ "foo/bar" = env.waServiceURL ++ "/foo/bar" := by
    rw [str_append_assoc, hlit]
  have h := handle_route env tree st now r pre hbody hok hfs
  rw [routeDispatch_wa env r pre "foo/bar" hv1 hkey hne hrem, htar] at h
  exact h

/-- A `PUT /v1/wa/foo` with the valid credential, a non-empty query string
and a body. -/
def reqC3q : Request :=
  ⟨"PUT", "/v1/wa/foo", "q=1&x=2", [("X-RIZ-KEY", "sekret")], "payload", "1.1.1.1"⟩

/-- Counterexample to C3 as stated: the original query string is not
preserved in the forwarded request. `proxy.Do` replaces the request URI
with the computed target, and the target is built from the path wildcard
alone, so for `PUT /v1/wa/foo?q=1&x=2` the forwarded URI is
`http://wa:3000/foo`, whose query part is empty — not `q=1&x=2`. -/
theorem c3_claim_counterexample :
    reqC3q.query = "q=1&x=2" ∧
    (handle envSample treeSample [] 0 reqC3q).outcome =
      Outcome.proxied ⟨"http://wa:3000/foo", "PUT", "payload"⟩ ∧
    uriQuery "http://wa:3000/foo" = "" ∧
    ¬ uriQuery "http://wa:3000/foo" = reqC3q.query := by
  refine ⟨rfl, by decide, by decide, by decide⟩

/-- C3 as amended: a request to `/v1/wa/foo/bar` with a valid credential is
handed to the proxy forwarder with target `WA_SERVICE_URL ++ "/foo/bar"`,
preserving the original method and body; the original query string plays no
role in the forwarded call — replacing it changes nothing. -/
theorem c3_wa_forward_drops_query (env : Env) (tree : AssetTree) (st : LimiterState)
    (now : Nat) (r : Request) (pre : Nat)
    (hbody : r.body.length ≤ bodyLimit)
    (hok : (limiterStep st r.clientIP now).1 = true)
    (hfs : fsMiddleware tree r = FsOut.next pre)
    (hpath : r.path = "/v1/wa/foo/bar")
    (hkey : getHeader r "X-RIZ-KEY" = env.rizSecretKey)
    (hne : env.rizSecretKey ≠ "") :
    (handle env tree st now r).outcome =
      Outcome.proxied ⟨env.waServiceURL ++ "/foo/bar", r.method, r.body⟩ ∧
    (handle env tree st now r).proxyInvoked = true ∧
    ∀ q', (handle env tree st now { r with query := q' }).outcome
        = (handle env tree st now r).outcome := by
  refine ⟨?_, ?_, ?_⟩
  · rw [wa_forward_result env tree st now r pre hbody hok hfs hpath hkey hne]
  · rw [wa_forward_result env tree st now r pre hbody hok hfs hpath hkey hne]
    unfold GatewayResult.proxyInvoked fsStages
    split
    · rfl
    · rfl
  · intro q'
    rw [wa_forward_result env tree st now { r with query := q' } pre hbody hok hfs hpath
          hkey hne,
        wa_forward_result env tree st now r pre hbody hok hfs hpath hkey hne]

/-- A `PUT /v1/wa/foo/bar` with the valid credential, a query and a body. -/
def reqC3 : Request :=
  ⟨"PUT", "/v1/wa/foo/bar", "a=1&b=2", [("X-RIZ-KEY", "sekret")], "payload", "1.1.1.1"⟩

/-- Witness for the amended C3: the concrete forward of
`PUT /v1/wa/foo/bar?a=1&b=2` carries the target, method and body. -/
theorem c3_wa_forward_drops_query_witness :
    (limiterStep [] reqC3.clientIP 0).1 = true ∧
    fsMiddleware treeSample reqC3 = FsOut.next 200 ∧
    getHeader reqC3 "X-RIZ-KEY" = envSample.rizSecretKey ∧
    ((handle envSample treeSample [] 0 reqC3).outcome =
      Outcome.proxied ⟨envSample.waServiceURL ++ "/foo/bar", reqC3.method, reqC3.body⟩ ∧
     (handle envSample treeSample [] 0 reqC3).proxyInvoked = true) :=
  ⟨by decide, by decide, by decide,
   (c3_wa_forward_drops_query envSample treeSample [] 0 reqC3 200
      (by decide) (by decide) (by decide) (by decide) (by decide) (by decide)).1,
   (c3_wa_forward_drops_query envSample treeSample [] 0 reqC3 200
      (by decide) (by decide) (by decide) (by decide) (by decide) (by decide)).2.1⟩

/-- C10: a request to `/v1/wa/` (resp. `/v1/mail/`) with a valid credential
and an empty wildcard remainder is proxied to exactly the configured base
URL followed by a single `/`. -/
theorem c10_empty_wildcard_target (env : Env) (tree : AssetTree) (st : LimiterState)
    (now : Nat) (r : Request) (pre : Nat)
    (hbody : r.body.length ≤ bodyLimit)
    (hok : (limiterStep st r.clientIP now).1 = true)
    (hfs : fsMiddleware tree r = FsOut.next pre)
    (hkey : getHeader r "X-RIZ-KEY" = env.rizSecretKey)
    (hne : env.rizSecretKey ≠ "") :
    (r.path = "/v1/wa/" →
      (handle env tree st now r).outcome =
        Outcome.proxied ⟨env.waServiceURL ++ "/", r.method, r.body⟩) ∧
    (r.path = "/v1/mail/" →
      (handle env tree st now r).outcome =
        Outcome.proxied ⟨env.mailServiceURL ++ "/", r.method, r.body⟩) := by
  constructor
  · intro hpath
    have hv1 : strStartsWith "/v1" r.path = true := by rw [hpath]; decide
    have hrem : waRemainder r.path = some "" := by rw [hpath]; decide
    have htar : env.waServiceURL ++ "/" ++ "" = env.waServiceURL ++ "/" :=
      String.append_empty _
    have h := handle_route env tree st now r pre hbody hok hfs
    rw [routeDispatch_wa env r pre "" hv1 hkey hne hrem, htar] at h
    rw [h]
  · intro hpath
    have hv1 : strStartsWith "/v1" r.path = true := by rw [hpath]; decide
    have hwa : waRemainder r.path = none := by rw [hpath]; decide
    have hrem : mailRemainder r.path = some "" := by rw [hpath]; decide
    have htar : env.mailServiceURL ++ "/" ++ "" = env.mailServiceURL ++ "/" :=
      String.append_empty _
    have h := handle_route env tree st now r pre hbody hok hfs
    rw [routeDispatch_mail env r pre "" hv1 hkey hne hwa hrem, htar] at h
    rw [h]

/-- A `POST /v1/wa/` with the valid credential and an empty wildcard. -/
def reqC10 : Request :=
  ⟨"POST", "/v1/wa/", "", [("X-RIZ-KEY", "sekret")], "b", "1.1.1.1"⟩

/-- Witness for C10: `POST /v1/wa/` is proxied to `WA_SERVICE_URL ++ "/"`. -/
theorem c10_empty_wildcard_target_witness :
    (limiterStep [] reqC10.clientIP 0).1 = true ∧
    fsMiddleware treeSample reqC10 = FsOut.next 200 ∧
    getHeader reqC10 "X-RIZ-KEY" = envSample.rizSecretKey ∧
    reqC10.path = "/v1/wa/" ∧
    (handle envSample treeSample [] 0 reqC10).outcome =
      Outcome.proxied ⟨envSample.waServiceURL ++ "/", reqC10.method, reqC10.body⟩ :=
  ⟨by decide, by decide, by decide, by decide,
   (c10_empty_wildcard_target envSample treeSample [] 0 reqC10 200
     (by decide) (by decide) (by decide) (by decide) (by decide)).1 rfl⟩

end Gateway

namespace Gateway

end Gateway

namespace Gateway

/-- A bundle that (hypothetically) carries a file under `v1/`. -/
def treeC9 : AssetTree :=
  [("index.html", "<html>app</html>"), ("v1/wa/leak.txt", "TOPSECRET")]

/-- A `POST` to the path of that file, with no credential. -/
def reqC9post : Request := ⟨"POST", "/v1/wa/leak.txt", "", [], "", "4.4.4.4"⟩

/-- Counterexample to C9 as stated: for a `POST` to a path that does match a
file of the asset tree, the filesystem middleware passes the request on (it
serves only `GET`/`HEAD`), so the authenticator does run and the file is not
served. -/
theorem c9_claim_counterexample :
    assetFile treeC9 "v1/wa/leak.txt" = some "TOPSECRET" ∧
    (handle envSample treeC9 [] 0 reqC9post).outcome = Outcome.unauthorized ∧
    (handle envSample treeC9 [] 0 reqC9post).authInvoked = true := by
  refine ⟨by decide, by decide, by decide⟩

/-- C9 as amended: for `GET` and `HEAD` requests that are admitted by the
limiter and whose path the filesystem middleware resolves to a file of the
bundle — including paths under `/v1/*` and `/status` — that file is served
with 200 and neither the authenticator nor any registered route handler
runs. -/
theorem c9_static_served_before_routes (env : Env) (tree : AssetTree) (st : LimiterState)
    (now : Nat) (r : Request) (c : String)
    (hbody : r.body.length ≤ bodyLimit)
    (hok : (limiterStep st r.clientIP now).1 = true)
    (hmethod : r.method = "GET" ∨ r.method = "HEAD")
    (hfile : fsResolve tree r.path = FsOut.serve c) :
    (handle env tree st now r).outcome = Outcome.staticServed c ∧
    (handle env tree st now r).outcome.statusCode = some 200 ∧
    (handle env tree st now r).authInvoked = false ∧
    (handle env tree st now r).stages = [Stage.rateCheck, Stage.staticLookup] := by
  have hfs : fsMiddleware tree r = FsOut.serve c := by
    unfold fsMiddleware
    rw [if_pos hmethod, hfile]
  rw [handle_static env tree st now r c hbody hok hfs]
  exact ⟨rfl, rfl, rfl, rfl⟩

/-- A `GET` to the same `/v1/wa/leak.txt` path, with no credential. -/
def reqC9get : Request := ⟨"GET", "/v1/wa/leak.txt", "", [], "", "4.4.4.4"⟩

/-- Witness for the amended C9: `GET /v1/wa/leak.txt` is served straight
from the bundle, with the authenticator never consulted. -/
theorem c9_static_served_before_routes_witness :
    fsResolve treeC9 reqC9get.path = FsOut.serve "TOPSECRET" ∧
    (reqC9get.method = "GET" ∨ reqC9get.method = "HEAD") ∧
    ((handle envSample treeC9 [] 0 reqC9get).outcome = Outcome.staticServed "TOPSECRET" ∧
     (handle envSample treeC9 [] 0 reqC9get).outcome.statusCode = some 200 ∧
     (handle envSample treeC9 [] 0 reqC9get).authInvoked = false ∧
     (handle envSample treeC9 [] 0 reqC9get).stages = [Stage.rateCheck, Stage.staticLookup]) :=
  ⟨by decide, Or.inl rfl,
   c9_static_served_before_routes envSample treeC9 [] 0 reqC9get "TOPSECRET"
     (by decide) (by decide) (Or.inl rfl) (by decide)⟩

/-- A `GET /status` carrying a bogus credential header. -/
def reqC6 : Request :=
  ⟨"GET", "/status", "", [("X-RIZ-KEY", "totally-wrong")], "", "5.5.5.5"⟩

/-- C6, evaluated at the failing input: `GET /status` against a bundle with
no `status` asset is rate-checked, skips the authenticator and the proxy,
and gets exactly the fixed JSON body regardless of the bogus credential —
but its response status is 404, not 200: the filesystem middleware's miss
pre-set the status (`c.Status(404).Next()`), and the handler's `c.JSON` sets
only the body. -/
theorem c6_status_endpoint_divergence :
    assetFile treeSample "status" = none ∧
    (handle envSample treeSample [] 0 reqC6).outcome = Outcome.statusJSON 404 statusBody ∧
    (handle envSample treeSample [] 0 reqC6).outcome.bodyText = some statusBody ∧
    (handle envSample treeSample [] 0 reqC6).outcome.statusCode = some 404 ∧
    (handle envSample treeSample [] 0 reqC6).authInvoked = false ∧
    (handle envSample treeSample [] 0 reqC6).proxyInvoked = false ∧
    (handle envSample treeSample [] 0 reqC6).stages.contains Stage.rateCheck = true := by
  refine ⟨by decide, by decide, by decide, by decide, by decide, by decide, by decide⟩

end Gateway

namespace Gateway

/-- A fresh key's first call: the zero entry gets the window expiry and one
hit, and is admitted. -/
theorem limiterStep_fresh (st : LimiterState) (key : String) (ts : Nat)
    (h : lookupEntry st key = ⟨0, 0⟩) :
    limiterStep st key ts = (true, setEntry st key ⟨1, ts + windowSeconds⟩) := by
  simp [limiterStep, h, maxHits]

/-- A call inside an open window (`ts < exp`, `exp ≠ 0`) increments the hit
count and admits iff the count stays within `maxHits`. -/
theorem limiterStep_inWindow (st : LimiterState) (key : String) (ts n E : Nat)
    (hE : 0 < E) (hts : ts < E)
    (h : lookupEntry st key = ⟨n, E⟩) :
    limiterStep st key ts = (decide (n + 1 ≤ maxHits), setEntry st key ⟨n + 1, E⟩) := by
  simp only [limiterStep, h]
  rw [if_neg hE.ne', if_neg (not_le.mpr hts)]

/-- Whatever the outcome, a request within the body limit leaves the limiter
storage exactly as `limiterStep` does. -/
theorem handle_limiter (env : Env) (tree : AssetTree) (st : LimiterState) (now : Nat)
    (r : Request)
    (hbody : r.body.length ≤ bodyLimit) :
    (handle env tree st now r).limiter = (limiterStep st r.clientIP now).2 := by
  have hb : ¬ (bodyLimit < r.body.length) := not_lt.mpr hbody
  unfold handle
  rw [if_neg hb]
  cases hl : (limiterStep st r.clientIP now).1 with
  | false => simp
  | true =>
    rw [if_pos rfl]
    cases hf : fsMiddleware tree r <;> rfl

/-- Route dispatch never produces the rate-limited outcome. -/
theorem routeDispatch_not_rateLimited (env : Env) (r : Request) (pre : Nat) :
    (routeDispatch env r pre).1 ≠ Outcome.rateLimited := by
  unfold routeDispatch
  split
  · split
    · simp
    · cases waRemainder r.path with
      | some rest => simp
      | none =>
        cases mailRemainder r.path with
        | some rest => simp
        | none => simp
  · split
    · simp
    · simp

/-- A request within the body limit ends rate-limited exactly when the
limiter rejects it. -/
theorem handle_outcome_rateLimited (env : Env) (tree : AssetTree) (st : LimiterState)
    (now : Nat) (r : Request)
    (hbody : r.body.length ≤ bodyLimit) :
    decide ((handle env tree st now r).outcome = Outcome.rateLimited)
      = !(limiterStep st r.clientIP now).1 := by
  have hb : ¬ (bodyLimit < r.body.length) := not_lt.mpr hbody
  cases hl : (limiterStep st r.clientIP now).1 with
  | false =>
    rw [handle_rateLimited env tree st now r hbody hl]
    rfl
  | true =>
    have hne : (handle env tree st now r).outcome ≠ Outcome.rateLimited := by
      unfold handle
      rw [if_neg hb, hl, if_pos rfl]
      cases hf : fsMiddleware tree r with
      | serve c => simp
      | forbidden => simp
      | next pre => simpa using routeDispatch_not_rateLimited env r pre
    simp [hne]

/-- Rejection pattern of the fixed window: with `n` hits already stored, the
next request of the window is rejected iff the incremented count exceeds
`maxHits`, and so on down the remaining length. -/
def rejPattern (n : Nat) : Nat → List Bool
  | 0 => []
  | k + 1 => decide (maxHits < n + 1) :: rejPattern (n + 1) k

/-- Requests of one client inside one open window: the sequence of
rate-limit rejections follows `rejPattern`, and the stored counters of every
other key never change. -/
theorem handleSeq_window (env : Env) (tree : AssetTree) (key : String) (E : Nat)
    (hE : 0 < E) :
    ∀ (reqs : List (Nat × Request)) (st : LimiterState) (n : Nat),
      lookupEntry st key = ⟨n, E⟩ →
      (∀ p ∈ reqs, (Prod.snd p).clientIP = key) →
      (∀ p ∈ reqs, (Prod.snd p).body.length ≤ bodyLimit) →
      (∀ p ∈ reqs, Prod.fst p < E) →
      (handleSeq env tree st reqs).map
          (fun g => decide (g.outcome = Outcome.rateLimited)) = rejPattern n reqs.length ∧
      ∀ g ∈ handleSeq env tree st reqs, ∀ k', k' ≠ key →
        lookupEntry g.limiter k' = lookupEntry st k' := by
  intro reqs
  induction reqs with
  | nil =>
    intro st n hst hk hb hw
    exact ⟨rfl, fun g hg => absurd hg (List.not_mem_nil g)⟩
  | cons p rest ih =>
    obtain ⟨t, r⟩ := p
    intro st n hst hk hb hw
    have hkr : r.clientIP = key := hk (t, r) (List.mem_cons_self _ _)
    have hbr : r.body.length ≤ bodyLimit := hb (t, r) (List.mem_cons_self _ _)
    have hwr : t < E := hw (t, r) (List.mem_cons_self _ _)
    have hstep : limiterStep st key t = (decide (n + 1 ≤ maxHits), setEntry st key ⟨n + 1, E⟩) :=
      limiterStep_inWindow st key t n E hE hwr hst
    have hlim : (handle env tree st t r).limiter = setEntry st key ⟨n + 1, E⟩ := by
      rw [handle_limiter env tree st t r hbr, hkr, hstep]
    have hdec : decide ((handle env tree st t r).outcome = Outcome.rateLimited)
        = decide (maxHits < n + 1) := by
      rw [handle_outcome_rateLimited env tree st t r hbr, hkr, hstep]
      by_cases h : n + 1 ≤ maxHits
      · simp [h, Nat.not_lt.mpr h]
      · simp [h, Nat.lt_of_not_le h]
    have hst' : lookupEntry (handle env tree st t r).limiter key = ⟨n + 1, E⟩ := by
      rw [hlim, lookupEntry_setEntry_self]
    have IH := ih (handle env tree st t r).limiter (n + 1) hst'
      (fun q hq => hk q (List.mem_cons_of_mem _ hq))
      (fun q hq => hb q (List.mem_cons_of_mem _ hq))
      (fun q hq => hw q (List.mem_cons_of_mem _ hq))
    constructor
    · simp only [handleSeq, List.map, List.length_cons, rejPattern]
      rw [hdec, IH.1]
    · simp only [handleSeq]
      intro g hg k' hk'
      rcases List.mem_cons.mp hg with h | h
      · rw [h, hlim, lookupEntry_setEntry_ne st key k' _ hk']
      · rw [IH.2 g h k' hk', hlim, lookupEntry_setEntry_ne st key k' _ hk']

/-- C2: a client key with no stored window that issues 51 requests inside a
single 60-second window is admitted on its first 50 requests and
rate-limited on the 51st, and the whole sequence never touches the stored
counter of any other client key. -/
theorem c2_fixed_window (env : Env) (tree : AssetTree) (st : LimiterState) (key : String)
    (t0 : Nat) (r0 : Request) (rest : List (Nat × Request))
    (hfresh : lookupEntry st key = ⟨0, 0⟩)
    (h0k : r0.clientIP = key) (h0b : r0.body.length ≤ bodyLimit)
    (hk : ∀ p ∈ rest, (Prod.snd p).clientIP = key)
    (hb : ∀ p ∈ rest, (Prod.snd p).body.length ≤ bodyLimit)
    (hw : ∀ p ∈ rest, Prod.fst p < t0 + windowSeconds)
    (hlen : rest.length = 50) :
    (handleSeq env tree st ((t0, r0) :: rest)).map
        (fun g => decide (g.outcome = Outcome.rateLimited))
      = List.replicate 50 false ++ [true] ∧
    ∀ g ∈ handleSeq env tree st ((t0, r0) :: rest), ∀ k', k' ≠ key →
      lookupEntry g.limiter k' = lookupEntry st k' := by
  have hE : 0 < t0 + windowSeconds := by unfold windowSeconds; omega
  have hstep : limiterStep st key t0 = (true, setEntry st key ⟨1, t0 + windowSeconds⟩) :=
    limiterStep_fresh st key t0 hfresh
  have hlim : (handle env tree st t0 r0).limiter = setEntry st key ⟨1, t0 + windowSeconds⟩ := by
    rw [handle_limiter env tree st t0 r0 h0b, h0k, hstep]
  have hdec : decide ((handle env tree st t0 r0).outcome = Outcome.rateLimited) = false := by
    rw [handle_outcome_rateLimited env tree st t0 r0 h0b, h0k, hstep]
    rfl
  have hst' : lookupEntry (handle env tree st t0 r0).limiter key = ⟨1, t0 + windowSeconds⟩ := by
    rw [hlim, lookupEntry_setEntry_self]
  have W := handleSeq_window env tree key (t0 + windowSeconds) hE rest
    (handle env tree st t0 r0).limiter 1 hst' hk hb hw
  constructor
  · simp only [handleSeq, List.map]
    rw [hdec, W.1, hlen]
    decide
  · simp only [handleSeq]
    intro g hg k' hk'
    rcases List.mem_cons.mp hg with h | h
    · rw [h, hlim, lookupEntry_setEntry_ne st key k' _ hk']
    · rw [W.2 g h k' hk', hlim, lookupEntry_setEntry_ne st key k' _ hk']

/-- The request a rate-limited client keeps repeating. -/
def reqC2 : Request := ⟨"GET", "/status", "", [], "", "7.7.7.7"⟩

/-- Witness for C2: 51 requests from `7.7.7.7` inside one window — the
first at second 0, fifty more at second 30 — give exactly fifty admissions
followed by one rejection. -/
theorem c2_fixed_window_witness :
    lookupEntry ([] : LimiterState) "7.7.7.7" = ⟨0, 0⟩ ∧
    (List.replicate 50 ((30 : Nat), reqC2)).length = 50 ∧
    (handleSeq envSample treeSample []
        ((0, reqC2) :: List.replicate 50 (30, reqC2))).map
        (fun g => decide (g.outcome = Outcome.rateLimited))
      = List.replicate 50 false ++ [true] := by
  refine ⟨by decide, by simp, ?_⟩
  exact (c2_fixed_window envSample treeSample [] "7.7.7.7" 0 reqC2
    (List.replicate 50 (30, reqC2)) (by decide) rfl (by decide)
    (fun p hp => by rw [List.eq_of_mem_replicate hp]; rfl)
    (fun p hp => by rw [List.eq_of_mem_replicate hp]; decide)
    (fun p hp => by rw [List.eq_of_mem_replicate hp]; decide)
    (by simp)).1

end Gateway
